import Mathlib

namespace GrapheneMongo

/-! Shallow embedding of the graphene-mongo repository (files
`src/graphene_mongo/converter.py`, `src/graphene_mongo/fields.py`,
`src/graphene_mongo/helper_fields.py`).  Python values are modelled as
follows: graphene type objects become the inductive `GType`; mongoengine
field descriptors become the inductive `MField` (one constructor per
registered mongoengine field class, each carrying the `required` flag and
the optional `description` the converter reads); the converter's possible
return values (unmounted scalar instances, mounted `graphene.Field`
instances, `MapField`, `graphene.List`, connection fields,
`graphene.Dynamic`, and Python `None`) become the inductive
`ConvertResult`; raising `MongoEngineConversionError` becomes returning
`Except.error`. -/

/-- GraphQL-side type descriptors, mirroring the graphene types this code
base constructs (scalars, object types, unions, the advanced geo/file
object types, the synthesized map entry types, list/non-null wrappers and
connection types).  A union is identified by the declared names of its
member object types, mirroring the `Meta.types` tuple built in
`convert_field_to_union`. -/
inductive GType where
  | string
  | id
  | int
  | boolean
  | float
  | dateTime
  | jsonString
  | point
  | polygon
  | multiPolygon
  | file
  | object (name : String) (isNode : Bool)
  | union (members : List String)
  | entry (valueTypeName : String)
  | connectionT (nodeName : String)
  | noneType
  | list (ofType : GType)
  | nonNull (ofType : GType)
deriving DecidableEq, Repr

/-- The `_meta.name` of a graphene type, as used by `get_entry_type` in
`helper_fields.py` to key the entry-type cache. -/
def GType.metaName : GType → String
  | .string => "String"
  | .id => "ID"
  | .int => "Int"
  | .boolean => "Boolean"
  | .float => "Float"
  | .dateTime => "DateTime"
  | .jsonString => "JSONString"
  | .point => "PointFieldType"
  | .polygon => "PolygonFieldType"
  | .multiPolygon => "MultiPolygonFieldType"
  | .file => "FileFieldType"
  | .object n _ => n
  | .union _ => "Union"
  | .entry v => v ++ "Entry"
  | .connectionT n => n ++ "Connection"
  | .noneType => "NoneType"
  | .list _ => "List"
  | .nonNull _ => "NonNull"

/-- `graphene.relay.is_node`: true exactly for object types implementing the
relay Node interface (instances and non-object types are not nodes). -/
def GType.isNode : GType → Bool
  | .object _ n => n
  | _ => false

/-- Whether the type is a subclass of `graphene.Scalar` (the scalars above;
`JSONString` is a `Scalar` subclass in graphene). -/
def GType.isScalar : GType → Bool
  | .string | .id | .int | .boolean | .float | .dateTime | .jsonString => true
  | _ => false

/-- A type registered for a document model (what
`registry.get_type_for_model` returns, together with the two attributes of
its `_meta` that `fields.py` inspects: whether the type exposes an `id`
field, and whether the backing model is an `EmbeddedDocument`). -/
structure RegisteredType where
  gtype : GType
  hasIdField : Bool
  isEmbeddedModel : Bool
deriving DecidableEq, Repr

/-- The type registry: a mapping from document-model name to the registered
API object type (`registry.get_type_for_model`; an unregistered model yields
`none`). -/
abbrev Registry := List (String × RegisteredType)

/-- Mongoengine persisted-field descriptors: one constructor per
mongoengine field class registered in `converter.py`'s dispatch table, each
carrying the attributes the converter reads (`required`, the description,
and for container/relationship kinds the nested field or target model
name).  `unknownField` stands for any field class with no registered
conversion rule; it carries that class's name. -/
inductive MField where
  | stringField (required : Bool) (description : Option String)
  | emailField (required : Bool) (description : Option String)
  | urlField (required : Bool) (description : Option String)
  | uuidField (required : Bool) (description : Option String)
  | objectIdField (required : Bool) (description : Option String)
  | intField (required : Bool) (description : Option String)
  | longField (required : Bool) (description : Option String)
  | sequenceField (required : Bool) (description : Option String)
  | booleanField (required : Bool) (description : Option String)
  | decimalField (required : Bool) (description : Option String)
  | floatField (required : Bool) (description : Option String)
  | dateTimeField (required : Bool) (description : Option String)
  | dictField (required : Bool) (description : Option String)
  | pointField (required : Bool) (description : Option String)
  | polygonField (required : Bool) (description : Option String)
  | multiPolygonField (required : Bool) (description : Option String)
  | fileField (required : Bool) (description : Option String)
  | listField (required : Bool) (description : Option String) (elem : MField)
  | embeddedDocumentListField (required : Bool) (description : Option String) (elem : MField)
  | mapField (required : Bool) (description : Option String) (elem : MField)
  | referenceField (required : Bool) (description : Option String) (target : String)
  | lazyReferenceField (required : Bool) (description : Option String) (target : String)
  | cachedReferenceField (required : Bool) (description : Option String) (target : String)
  | embeddedDocumentField (required : Bool) (description : Option String) (target : String)
  | genericReferenceField (required : Bool) (description : Option String) (choices : List String)
  | genericEmbeddedDocumentField (required : Bool) (description : Option String) (choices : List String)
  | unknownField (required : Bool) (description : Option String) (className : String)
deriving DecidableEq, Repr

/-- The `required` attribute of a mongoengine field. -/
def MField.required : MField → Bool
  | .stringField r _ | .emailField r _ | .urlField r _ | .uuidField r _
  | .objectIdField r _ | .intField r _ | .longField r _ | .sequenceField r _
  | .booleanField r _ | .decimalField r _ | .floatField r _
  | .dateTimeField r _ | .dictField r _ | .pointField r _ | .polygonField r _
  | .multiPolygonField r _ | .fileField r _ => r
  | .listField r _ _ | .embeddedDocumentListField r _ _ | .mapField r _ _ => r
  | .referenceField r _ _ | .lazyReferenceField r _ _
  | .cachedReferenceField r _ _ | .embeddedDocumentField r _ _ => r
  | .genericReferenceField r _ _ | .genericEmbeddedDocumentField r _ _ => r
  | .unknownField r _ _ => r

/-- The description attribute of a mongoengine field. -/
def MField.description : MField → Option String
  | .stringField _ d | .emailField _ d | .urlField _ d | .uuidField _ d
  | .objectIdField _ d | .intField _ d | .longField _ d | .sequenceField _ d
  | .booleanField _ d | .decimalField _ d | .floatField _ d
  | .dateTimeField _ d | .dictField _ d | .pointField _ d | .polygonField _ d
  | .multiPolygonField _ d | .fileField _ d => d
  | .listField _ d _ | .embeddedDocumentListField _ d _ | .mapField _ d _ => d
  | .referenceField _ d _ | .lazyReferenceField _ d _
  | .cachedReferenceField _ d _ | .embeddedDocumentField _ d _ => d
  | .genericReferenceField _ d _ | .genericEmbeddedDocumentField _ d _ => d
  | .unknownField _ d _ => d

/-- The Python class name of a mongoengine field (`field.__class__`). -/
def MField.className : MField → String
  | .stringField .. => "StringField"
  | .emailField .. => "EmailField"
  | .urlField .. => "URLField"
  | .uuidField .. => "UUIDField"
  | .objectIdField .. => "ObjectIdField"
  | .intField .. => "IntField"
  | .longField .. => "LongField"
  | .sequenceField .. => "SequenceField"
  | .booleanField .. => "BooleanField"
  | .decimalField .. => "DecimalField"
  | .floatField .. => "FloatField"
  | .dateTimeField .. => "DateTimeField"
  | .dictField .. => "DictField"
  | .pointField .. => "PointField"
  | .polygonField .. => "PolygonField"
  | .multiPolygonField .. => "MultiPolygonField"
  | .fileField .. => "FileField"
  | .listField .. => "ListField"
  | .embeddedDocumentListField .. => "EmbeddedDocumentListField"
  | .mapField .. => "MapField"
  | .referenceField .. => "ReferenceField"
  | .lazyReferenceField .. => "LazyReferenceField"
  | .cachedReferenceField .. => "CachedReferenceField"
  | .embeddedDocumentField .. => "EmbeddedDocumentField"
  | .genericReferenceField .. => "GenericReferenceField"
  | .genericEmbeddedDocumentField .. => "GenericEmbeddedDocumentField"
  | .unknownField _ _ c => c

/-- Python's default object representation of a field instance
(`str(field)`), which displays the instance's class. -/
def MField.pyRepr (f : MField) : String :=
  "<" ++ f.className ++ " object>"

/-- Modelled from the spec: `utils.get_field_description` (the module
`graphene_mongo/utils.py` is not part of the given sources) — per the
conversion-table contract, the produced description is the field's declared
description, with no description when the source field has none. -/
def get_field_description (f : MField) : Option String :=
  f.description

/-- The data of a `MongoEngineConversionError` (`converter.py` line 15):
the two values interpolated into its message, the field's representation
and the field's class. -/
structure MongoEngineConversionError where
  fieldRepr : String
  fieldClass : String
deriving DecidableEq, Repr

/-- The rendered error message, interpolating the field and its class as in
the format string of `converter.py` lines 21-24 (the apostrophe of the
original first word is elided here). -/
def MongoEngineConversionError.message (e : MongoEngineConversionError) : String :=
  "Dont know how to convert the MongoEngine field " ++ e.fieldRepr ++ " (" ++ e.fieldClass ++ ")"

/-- The possible return values of `convert_mongoengine_field`:
`scalar` for unmounted scalar instances such as `graphene.String(...)`;
`field` for mounted `graphene.Field(...)` instances (geo/file/union rules);
`mapFieldResult` for `MapField(...)` instances (whose field type is
`List(<ValueType>Entry)`); `listResult` for `graphene.List(...)`;
`connection` for `connection_field_class(...)` instances; `dynamic` for
`graphene.Dynamic` (carrying the value of its `dynamic_type()` thunk under
the fixed registry: the inner field type and description, or `none` when
the target model is not registered); `absent` for a bare Python `None`
return. -/
inductive ConvertResult where
  | scalar (t : GType) (required : Bool) (description : Option String)
  | field (t : GType) (required : Bool) (description : Option String)
  | mapFieldResult (valueType : GType) (required : Bool) (description : Option String)
  | listResult (ofType : GType) (required : Bool) (description : Option String)
  | connection (nodeType : GType)
  | dynamic (resolved : Option (RegisteredType × Option String))
  | absent
deriving DecidableEq, Repr

/-- Registry lookup, `registry.get_type_for_model`. -/
def get_type_for_model (reg : Registry) (model : String) : Option RegisteredType :=
  reg.lookup model

/-- The object types resolvable from a generic-reference or
generic-embedded field's `choices` (the `_types` list collected in
`convert_field_to_union`: each choice is converted as a concrete
reference/embedded field, whose deferred type resolves exactly when the
target model is registered). -/
def resolvableChoices (reg : Registry) (choices : List String) : List GType :=
  choices.filterMap fun c => (get_type_for_model reg c).map RegisteredType.gtype

/-- The branching of `convert_field_to_map` (`converter.py` lines 81-107)
on the converted value field, along the `isinstance` chain of the source:
`graphene.Field` first (which in Python also catches `MapField` and
connection fields, both `Field` subclasses, whose stored `_type` is taken),
then `graphene.Dynamic` (unwrap its deferred type, returning `None` when
it resolves to nothing), then the non-relationship unwrapping
`base_type = type(base_type)`, modelled by keeping only the element's
type. -/
def map_field_from_base (req : Bool) (dsc : Option String) : ConvertResult → ConvertResult
  | .field t _ _ => .mapFieldResult t req dsc
  | .mapFieldResult vt _ _ => .mapFieldResult (GType.list (.entry vt.metaName)) req dsc
  | .connection nt => .mapFieldResult (.connectionT nt.metaName) req dsc
  | .dynamic none => .absent
  | .dynamic (some (e, _)) => .mapFieldResult e.gtype req dsc
  | .scalar t _ _ => .mapFieldResult t req dsc
  | .listResult t _ _ => .mapFieldResult (GType.list t) req dsc
  | .absent => .mapFieldResult .noneType req dsc

/-- The branching of `convert_field_to_list` (`converter.py` lines
129-159) on the converted element, along the same `isinstance` chain as
`map_field_from_base` plus the `graphene.is_node` check that turns a list
of a node-capable type into a connection field of that type. -/
def list_field_from_base (req : Bool) (dsc : Option String) : ConvertResult → ConvertResult
  | .field t _ _ => .listResult t req dsc
  | .mapFieldResult vt _ _ => .listResult (GType.list (.entry vt.metaName)) req dsc
  | .connection nt => .listResult (.connectionT nt.metaName) req dsc
  | .dynamic none => .absent
  | .dynamic (some (e, _)) =>
      if e.gtype.isNode then .connection e.gtype else .listResult e.gtype req dsc
  | .scalar t _ _ => .listResult t req dsc
  | .listResult t _ _ => .listResult (GType.list t) req dsc
  | .absent => .listResult .noneType req dsc

/-- The single-dispatch converter `convert_mongoengine_field` of
`converter.py`, translated rule by rule; raising
`MongoEngineConversionError` becomes `Except.error`.  The recursive
`ListField`/`EmbeddedDocumentListField` and `MapField` rules convert their
element field and hand the result to the branch helpers above (a
conversion error in the element propagates). -/
def convert_mongoengine_field (reg : Registry) : MField → Except MongoEngineConversionError ConvertResult
  | .stringField r d => .ok (.scalar .string r d)
  | .emailField r d => .ok (.scalar .string r d)
  | .urlField r d => .ok (.scalar .string r d)
  | .uuidField r d => .ok (.scalar .id r d)
  | .objectIdField r d => .ok (.scalar .id r d)
  | .intField r d => .ok (.scalar .int r d)
  | .longField r d => .ok (.scalar .int r d)
  | .sequenceField r d => .ok (.scalar .int r d)
  | .booleanField r d => .ok (.scalar .boolean r d)
  | .decimalField r d => .ok (.scalar .float r d)
  | .floatField r d => .ok (.scalar .float r d)
  | .dateTimeField r d => .ok (.scalar .dateTime r d)
  | .dictField r d => .ok (.scalar .jsonString r d)
  | .pointField _ _ => .ok (.field .point false none)
  | .polygonField _ _ => .ok (.field .polygon false none)
  | .multiPolygonField _ _ => .ok (.field .multiPolygon false none)
  | .fileField _ _ => .ok (.field .file false none)
  | f@(.mapField r _d elem) =>
      (convert_mongoengine_field reg elem).map (map_field_from_base r (get_field_description f))
  | f@(.listField r _d elem) | f@(.embeddedDocumentListField r _d elem) =>
      (convert_mongoengine_field reg elem).map (list_field_from_base r (get_field_description f))
  | .genericReferenceField _ _ choices | .genericEmbeddedDocumentField _ _ choices =>
      let ts := resolvableChoices reg choices
      if ts.isEmpty then .ok .absent
      else .ok (.field (.union (ts.map GType.metaName)) false none)
  | f@(.referenceField _ _ target) | f@(.embeddedDocumentField _ _ target)
  | f@(.cachedReferenceField _ _ target) | f@(.lazyReferenceField _ _ target) =>
      .ok (.dynamic ((get_type_for_model reg target).map fun e => (e, get_field_description f)))
  | f@(.unknownField _ _ cls) => .error ⟨f.pyRepr, cls⟩

/-! Embedding of `helper_fields.py`: the process-wide `entry_type_lookup`
cache becomes an explicit cache value threaded through `get_entry_type`;
a synthesized entry type records its name and the value type captured when
it was created (so that returning a previously created object — Python
object identity — is observable as returning the entry whose captured
value type is the one present at creation time). -/

/-- A synthesized map entry object type: the class built by
`get_entry_type`, named `<ValueTypeName>Entry`, with a String `key` field
and a `value` field of the captured value type. -/
structure EntryType where
  name : String
  value_type : GType
deriving DecidableEq, Repr

/-- The process-wide `entry_type_lookup` dictionary, keyed by the value
type's declared name. -/
abbrev EntryCache := List (String × EntryType)

/-- `get_entry_type` (`helper_fields.py` lines 5-17): look the value
type's `_meta.name` up in the cache; on a miss, synthesize a new
`<name>Entry` type capturing the value type and store it; on a hit, return
the cached object unchanged. -/
def get_entry_type (value_type : GType) (cache : EntryCache) : EntryType × EntryCache :=
  let nm := value_type.metaName
  match cache.lookup nm with
  | some entry_type => (entry_type, cache)
  | none =>
      let entry_type : EntryType := ⟨nm ++ "Entry", value_type⟩
      (entry_type, (nm, entry_type) :: cache)

/-- One `{key, value}` record produced by the map projection. -/
structure MapEntry where
  key : String
  value : Int
deriving DecidableEq, Repr

/-- `MapField.resolve_map`: flatten a map (a Python dict, modelled as an
association list in its iteration order) into a list of key/value entries. -/
def resolve_map (resolved : List (String × Int)) : List MapEntry :=
  resolved.map fun kv => ⟨kv.1, kv.2⟩

/-- A Python value an underlying resolver can settle to: a dict (map) or
`None`. -/
inductive PySettled where
  | pymap (entries : List (String × Int))
  | pynone
deriving DecidableEq, Repr

/-- The underlying resolver's raw result: either an already-settled value
or a thenable (promise) that settles to one. -/
inductive ResolverResult where
  | immediate (v : PySettled)
  | thenable (v : PySettled)
deriving DecidableEq, Repr

/-- The value a resolver result settles to. -/
def ResolverResult.settled : ResolverResult → PySettled
  | .immediate v => v
  | .thenable v => v

/-- `graphene.utils.thenables.maybe_thenable`: apply `f` directly to a
plain value, or chain it to run after a thenable settles. -/
def maybe_thenable (r : ResolverResult) (f : PySettled → α) : α :=
  match r with
  | .thenable v => f v
  | .immediate v => f v

/-- Applying `MapField.resolve_map` to a settled Python value: on a dict it
iterates `resolved.items()`; on `None` the attribute access raises (Python
`AttributeError`), modelled as `Except.error`. -/
def resolve_map_settled : PySettled → Except String (List MapEntry)
  | .pymap es => .ok (resolve_map es)
  | .pynone => .error "AttributeError: NoneType object has no attribute items"

/-- `MapField.map_resolver`: run the underlying resolver, then
unconditionally chain the map projection over its result via
`maybe_thenable`. -/
def map_resolver (resolver_result : ResolverResult) : Except String (List MapEntry) :=
  maybe_thenable resolver_result resolve_map_settled

/-! Embedding of `MongoengineConnectionField`'s argument derivation
(`fields.py` lines 67-194). -/

/-- The static data of a connection field's bound type that the argument
properties read: the backing document model's declared fields (looked up
through `getattr(self.model, k)`), the bound object type's fields
(`self._type._meta.fields`, whose values are the converted graphene
types), the declared `filter_fields` configuration, and the `searchable`
flag of the node type's meta. -/
structure BoundType where
  modelFields : List (String × MField)
  typeFields : List (String × GType)
  filter_fields : List (String × List String)
  searchable : Bool

/-- `get_filter_type` (`fields.py` lines 131-137): unwrap structure
wrappers (`List`, `NonNull`) down to the innermost type and instantiate
it. -/
def get_filter_type : GType → GType
  | .list t => get_filter_type t
  | .nonNull t => get_filter_type t
  | t => t

/-- `is_filterable` (`fields.py` lines 88-129): a bound-type field name is
kept as a same-named filter argument only when the model has such an
attribute, it converts without `MongoEngineConversionError`, the converted
value is neither a connection field nor a `Dynamic`, its mounted type is
not one of the advanced geo/file types or a union, and — for converted
lists — the element type is a `graphene.Scalar` subclass.  A converted
`MapField` is excluded by the final `of_type` check (its type is
`List(<...>Entry)` with a non-scalar element); a conversion returning
Python `None` passes every `isinstance` check and is kept. -/
def is_filterable (bt : BoundType) (reg : Registry) (k : String) : Bool :=
  match bt.modelFields.lookup k with
  | none => false
  | some mf =>
    match convert_mongoengine_field reg mf with
    | .error _ => false
    | .ok conv =>
      match conv with
      | .connection _ => false
      | .dynamic _ => false
      | .field t _ _ =>
          match t with
          | .file | .point | .multiPolygon | .polygon | .union _ => false
          | _ => true
      | .listResult t _ _ => t.isScalar
      | .mapFieldResult _ _ _ => false
      | .scalar _ _ _ => true
      | .absent => true

/-- `_field_args`/`field_args` (`fields.py` lines 87-143): the filterable
subset of the bound type's fields, each paired with its unwrapped scalar
type. -/
def field_args (bt : BoundType) (reg : Registry) : List (String × GType) :=
  bt.typeFields.filterMap fun kv =>
    if is_filterable bt reg kv.1 then some (kv.1, get_filter_type kv.2) else none

/-- `filter_args` (`fields.py` lines 145-168): one `<field>__<operator>`
argument per operator declared in `filter_fields`, list-typed for the
`in`/`nin`/`all` operators and bare otherwise.  The bound type is assumed
to expose every configured field (the source indexes
`self._type._meta.fields[field]` unguarded; a missing field is modelled as
the Python `NoneType`). -/
def filter_args (bt : BoundType) : List (String × GType) :=
  bt.filter_fields.flatMap fun fc =>
    fc.2.map fun each =>
      let base := match bt.typeFields.lookup fc.1 with
                  | some t => get_filter_type t
                  | none => GType.noneType
      let ftype := if each = "in" ∨ each = "nin" ∨ each = "all"
                   then GType.list base else base
      (fc.1 ++ "__" ++ each, ftype)

/-- `reference_args` (`fields.py` lines 170-190): one identifier-typed
argument per bound-type field whose backing model field is a reference
kind (a `ReferenceField`/`LazyReferenceField` is re-converted explicitly;
an embedded/cached reference reaches the same `get_type` path through the
`Dynamic` already stored on the type), kept only when the deferred type
resolves to a registered type that exposes an `id` field and whose model
is not an `EmbeddedDocument`. -/
def reference_args (bt : BoundType) (reg : Registry) : List (String × GType) :=
  bt.typeFields.foldl (fun r kv =>
    let deferred : Option (RegisteredType × Option String) :=
      match bt.modelFields.lookup kv.1 with
      | some mf@(.referenceField ..) | some mf@(.lazyReferenceField ..)
      | some mf@(.cachedReferenceField ..) | some mf@(.embeddedDocumentField ..) =>
          match convert_mongoengine_field reg mf with
          | .ok (.dynamic o) => o
          | _ => none
      | _ => none
    match deferred with
    | some (e, _) =>
        if e.hasIdField && !e.isEmbeddedModel then r ++ [(kv.1, GType.id)] else r
    | none => r) []

/-- The base relay connection arguments installed by the graphene library
(`ConnectionField.__init__` defaults, external to this repository; the
spec lists them as `first`, `last`, `before`, `after`). -/
def base_connection_args : List (String × GType) :=
  [("before", .string), ("after", .string), ("first", .int), ("last", .int)]

/-- The extra arguments added in `args` (`fields.py` lines 67-81):
`order_by`, and `search` exactly when the node type is searchable. -/
def extra_args (searchable : Bool) : List (String × GType) :=
  [("order_by", GType.string)] ++ (if searchable then [("search", GType.string)] else [])

/-- Python dict update `{**base, **upd}` as a mapping: keys of `upd`
override keys of `base`. -/
def dict_update (base upd : List (String × GType)) : List (String × GType) :=
  base.filter (fun p => (upd.lookup p.1).isNone) ++ upd

/-- The `args` property (`fields.py` lines 67-81): `to_arguments` over the
base connection arguments and the merged dictionary
`{**field_args, **filter_args, **reference_args, **extra_args}`. -/
def connection_args (bt : BoundType) (reg : Registry) : List (String × GType) :=
  dict_update base_connection_args
    (dict_update
      (dict_update
        (dict_update (field_args bt reg) (filter_args bt))
        (reference_args bt reg))
      (extra_args bt.searchable))

/-! Embedding of `get_queryset` (`fields.py` lines 196-232) and
`default_resolver` (lines 234-270). -/

/-- An operation applied to a queryset after construction. -/
inductive QuerySetOp where
  | search_text (s : String)
  | order_by (key : String)
deriving DecidableEq, Repr

/-- A mongoengine queryset, modelled as the keyword filters it was built
from plus the operations applied to it, in application order. -/
structure QuerySet where
  filters : List (String × Int)
  applied : List QuerySetOp
deriving DecidableEq, Repr

/-- The arguments reaching `get_queryset` that matter to search/ordering:
the remaining keyword filters and the popped `search`/`order_by` values. -/
structure QueryArgs where
  filters : List (String × Int)
  search : Option String
  order_by : Option String

/-- Python truthiness of an optional string argument (`None` and the empty
string are falsy). -/
def truthy : Option String → Bool
  | none => false
  | some s => !(s == "")

/-- `get_queryset` without a custom queryset override and with no
reference arguments (lines 219-232 of `fields.py`): pop `search` and
`order_by`, build `model.objects(**args)`, apply `search_text` when a
truthy `search` was supplied, then apply ordering: for the literal
`"relevance"`, order by the `$text_score` key only when a truthy `search`
was also supplied; for any other truthy value, order by it directly. -/
def get_queryset (args : QueryArgs) : QuerySet :=
  let search := args.search
  let order_by := args.order_by
  let queryset : QuerySet := ⟨args.filters, []⟩
  let queryset :=
    if truthy search
    then { queryset with applied := queryset.applied ++ [.search_text (search.getD "")] }
    else queryset
  if truthy order_by then
    if order_by.getD "" = "relevance" then
      if truthy search
      then { queryset with applied := queryset.applied ++ [.order_by "$text_score"] }
      else queryset
    else { queryset with applied := queryset.applied ++ [.order_by (order_by.getD "")] }
  else queryset

/-- The ordering an order key denotes under the database driver's
convention.  Modelled from the spec: a minus-prefixed field name sorts
descending, a bare field name ascending, and the `$text_score` key sorts
by descending text-search relevance (the mongoengine convention; the
driver is external to this repository). -/
inductive SortMeaning where
  | byFieldAsc (f : String)
  | byFieldDesc (f : String)
  | byRelevanceDesc
deriving DecidableEq, Repr

/-- Modelled from the spec: interpretation of a mongoengine `order_by`
key. -/
def orderKeyMeaning (k : String) : SortMeaning :=
  if k = "$text_score" then .byRelevanceDesc
  else
    match k.data with
    | '-' :: rest => .byFieldDesc (String.mk rest)
    | _ => .byFieldAsc k

/-- One edge of a relay connection; the cursor is the zero-based offset it
encodes (the base64 opaque encoding is abstracted away, offsets being what
it encodes). -/
structure Edge (α : Type) where
  node : α
  cursor : Nat
deriving DecidableEq, Repr

/-- Relay page info. -/
structure PageInfo where
  hasPreviousPage : Bool
  hasNextPage : Bool
  startCursor : Option Nat
  endCursor : Option Nat
deriving DecidableEq, Repr

/-- A relay connection over nodes of type `α`. -/
structure Connection (α : Type) where
  edges : List (Edge α)
  pageInfo : PageInfo
deriving DecidableEq, Repr

/-- Modelled from the spec: the list-slice connection algorithm
(`graphql_relay.connection_from_list_slice`, an external library that
`default_resolver` invokes with the full match list and the total count) —
`before`/`after` decode to zero-based offsets bounding the eligible range,
`first` caps the range to its first N elements, `last` caps the
already-bounded range to its last N elements, each edge carries a cursor
encoding its offset, and `hasPreviousPage`/`hasNextPage` record whether
the bounded range excluded elements before/after it. -/
def connection_from_list_slice (items : List α)
    (first? last? : Option Nat) (before? after? : Option Nat) : Connection α :=
  let len := items.length
  let startOffset := match after? with | some a => a + 1 | none => 0
  let endOffset := match before? with | some b => min b len | none => len
  let endOffset := match first? with | some f => min endOffset (startOffset + f) | none => endOffset
  let startOffset := match last? with | some l => max startOffset (endOffset - l) | none => startOffset
  let slice := (items.drop startOffset).take (endOffset - startOffset)
  let edges := slice.enum.map fun p => Edge.mk p.2 (startOffset + p.1)
  { edges := edges
    pageInfo :=
      { hasPreviousPage := decide (0 < startOffset)
        hasNextPage := decide (endOffset < len)
        startCursor := (edges.head?).map Edge.cursor
        endCursor := (edges.getLast?).map Edge.cursor } }

/-- `default_resolver` (`fields.py` lines 234-270) for a root-level
connection with no extra filter arguments: the four connection arguments
are popped into a separate bundle, the queryset's matches and total count
are taken, and the connection is built from the full match list with
`list_length = list_slice_length = count`; the raw iterable and count are
attached to the result. -/
structure ResolvedConnection (α : Type) where
  connection : Connection α
  iterable : List α
  list_length : Nat
deriving DecidableEq, Repr

/-- The connection `default_resolver` builds from the resolved match list
and the popped connection arguments. -/
def default_resolver (docs : List α)
    (first? last? : Option Nat) (before? after? : Option Nat) : ResolvedConnection α :=
  { connection := connection_from_list_slice docs first? last? before? after?
    iterable := docs
    list_length := docs.length }

/-! Theorems settling the claims. -/

/-- C4: for every persisted field of a supported scalar kind —
string/email/URL, UUID/object-identifier, integer/long/sequence, boolean,
decimal/float, date-time, and generic dict — conversion yields the
documented API scalar type (String, ID, Int, Boolean, Float, DateTime,
JSON-string respectively), with the result's required flag equal to the
source field's required flag. -/
theorem C4_scalar_conversion (req : Bool) (d : Option String) (reg : Registry) :
    convert_mongoengine_field reg (.stringField req d) = .ok (.scalar .string req d) ∧
    convert_mongoengine_field reg (.emailField req d) = .ok (.scalar .string req d) ∧
    convert_mongoengine_field reg (.urlField req d) = .ok (.scalar .string req d) ∧
    convert_mongoengine_field reg (.uuidField req d) = .ok (.scalar .id req d) ∧
    convert_mongoengine_field reg (.objectIdField req d) = .ok (.scalar .id req d) ∧
    convert_mongoengine_field reg (.intField req d) = .ok (.scalar .int req d) ∧
    convert_mongoengine_field reg (.longField req d) = .ok (.scalar .int req d) ∧
    convert_mongoengine_field reg (.sequenceField req d) = .ok (.scalar .int req d) ∧
    convert_mongoengine_field reg (.booleanField req d) = .ok (.scalar .boolean req d) ∧
    convert_mongoengine_field reg (.decimalField req d) = .ok (.scalar .float req d) ∧
    convert_mongoengine_field reg (.floatField req d) = .ok (.scalar .float req d) ∧
    convert_mongoengine_field reg (.dateTimeField req d) = .ok (.scalar .dateTime req d) ∧
    convert_mongoengine_field reg (.dictField req d) = .ok (.scalar .jsonString req d) := by
  exact ⟨rfl, rfl, rfl, rfl, rfl, rfl, rfl, rfl, rfl, rfl, rfl, rfl, rfl⟩

/-- C5 counterexample: the point rule (`convert_point_to_field`,
`converter.py` lines 109-111) drops the source field's required flag and
description — a required point field with a description converts to a
field that is not required and has no description, refuting the claim that
every dispatch rule carries `required = field.required` and
`description = field.description`. -/
theorem C5_counterexample :
    (MField.pointField true (some "location")).required = true ∧
    (MField.pointField true (some "location")).description = some "location" ∧
    convert_mongoengine_field [] (.pointField true (some "location")) =
      .ok (.field .point false none) :=
  ⟨rfl, rfl, rfl⟩

/-- C5 amended: every scalar dispatch rule (string/email/URL,
UUID/object-identifier, integer/long/sequence, boolean, decimal/float,
date-time, dict) produces an API field carrying
`required = field.required` and `description = field.description` (no
description when the source has none).  The map rule carries both
attributes on every field it produces.  The list rule carries both
attributes exactly when it produces a plain list field; when its element
resolves to a node-capable type it instead produces a connection field,
which carries neither attribute, and an unresolvable element yields no
field.  The point, polygon, multi-polygon, and file rules never propagate
either attribute: they produce a bare field with required `false` and no
description regardless of the source field.  The union rule produces a
field carrying neither attribute, and the reference/embedded rules produce
deferred fields carrying the description but not the required flag. -/
theorem C5_amended_attribute_propagation (req : Bool) (d : Option String)
    (reg : Registry) (elem : MField) (target : String) (choices : List String) :
    (convert_mongoengine_field reg (.stringField req d) = .ok (.scalar .string req d) ∧
     convert_mongoengine_field reg (.emailField req d) = .ok (.scalar .string req d) ∧
     convert_mongoengine_field reg (.urlField req d) = .ok (.scalar .string req d) ∧
     convert_mongoengine_field reg (.uuidField req d) = .ok (.scalar .id req d) ∧
     convert_mongoengine_field reg (.objectIdField req d) = .ok (.scalar .id req d) ∧
     convert_mongoengine_field reg (.intField req d) = .ok (.scalar .int req d) ∧
     convert_mongoengine_field reg (.longField req d) = .ok (.scalar .int req d) ∧
     convert_mongoengine_field reg (.sequenceField req d) = .ok (.scalar .int req d) ∧
     convert_mongoengine_field reg (.booleanField req d) = .ok (.scalar .boolean req d) ∧
     convert_mongoengine_field reg (.decimalField req d) = .ok (.scalar .float req d) ∧
     convert_mongoengine_field reg (.floatField req d) = .ok (.scalar .float req d) ∧
     convert_mongoengine_field reg (.dateTimeField req d) = .ok (.scalar .dateTime req d) ∧
     convert_mongoengine_field reg (.dictField req d) = .ok (.scalar .jsonString req d)) ∧
    (∀ res, convert_mongoengine_field reg (.mapField req d elem) = .ok res →
      res = .absent ∨ ∃ t, res = .mapFieldResult t req d) ∧
    (∀ res, convert_mongoengine_field reg (.listField req d elem) = .ok res →
      res = .absent ∨ (∃ nt, res = .connection nt) ∨ ∃ t, res = .listResult t req d) ∧
    (convert_mongoengine_field reg (.pointField req d) = .ok (.field .point false none) ∧
     convert_mongoengine_field reg (.polygonField req d) = .ok (.field .polygon false none) ∧
     convert_mongoengine_field reg (.multiPolygonField req d) =
       .ok (.field .multiPolygon false none) ∧
     convert_mongoengine_field reg (.fileField req d) = .ok (.field .file false none)) ∧
    (∀ res, convert_mongoengine_field reg (.genericReferenceField req d choices) = .ok res →
      res = .absent ∨ ∃ ms, res = .field (.union ms) false none) ∧
    (convert_mongoengine_field reg (.referenceField req d target) =
       .ok (.dynamic ((get_type_for_model reg target).map fun e => (e, d))) ∧
     convert_mongoengine_field reg (.embeddedDocumentField req d target) =
       .ok (.dynamic ((get_type_for_model reg target).map fun e => (e, d))) ∧
     convert_mongoengine_field reg (.cachedReferenceField req d target) =
       .ok (.dynamic ((get_type_for_model reg target).map fun e => (e, d))) ∧
     convert_mongoengine_field reg (.lazyReferenceField req d target) =
       .ok (.dynamic ((get_type_for_model reg target).map fun e => (e, d)))) := by
  refine ⟨⟨rfl, rfl, rfl, rfl, rfl, rfl, rfl, rfl, rfl, rfl, rfl, rfl, rfl⟩, ?_, ?_,
    ⟨rfl, rfl, rfl, rfl⟩, ?_, ⟨rfl, rfl, rfl, rfl⟩⟩
  · intro res hres
    have harm : convert_mongoengine_field reg (.mapField req d elem) =
        (convert_mongoengine_field reg elem).map (map_field_from_base req d) := by
      simp [convert_mongoengine_field, get_field_description, MField.description]
    rw [harm] at hres
    cases hc : convert_mongoengine_field reg elem with
    | error e => rw [hc] at hres; simp [Except.map] at hres
    | ok base =>
        rw [hc] at hres
        simp only [Except.map, Except.ok.injEq] at hres
        cases base with
        | scalar t r2 d2 => exact Or.inr ⟨t, hres.symm⟩
        | field t r2 d2 => exact Or.inr ⟨t, hres.symm⟩
        | mapFieldResult vt r2 d2 => exact Or.inr ⟨_, hres.symm⟩
        | listResult t r2 d2 => exact Or.inr ⟨_, hres.symm⟩
        | connection nt => exact Or.inr ⟨_, hres.symm⟩
        | dynamic o =>
            cases o with
            | none => exact Or.inl hres.symm
            | some p =>
                obtain ⟨e, ds⟩ := p
                exact Or.inr ⟨_, hres.symm⟩
        | absent => exact Or.inr ⟨_, hres.symm⟩
  · intro res hres
    have harm : convert_mongoengine_field reg (.listField req d elem) =
        (convert_mongoengine_field reg elem).map (list_field_from_base req d) := by
      simp [convert_mongoengine_field, get_field_description, MField.description]
    rw [harm] at hres
    cases hc : convert_mongoengine_field reg elem with
    | error e => rw [hc] at hres; simp [Except.map] at hres
    | ok base =>
        rw [hc] at hres
        simp only [Except.map, Except.ok.injEq] at hres
        cases base with
        | scalar t r2 d2 => exact Or.inr (Or.inr ⟨t, hres.symm⟩)
        | field t r2 d2 => exact Or.inr (Or.inr ⟨t, hres.symm⟩)
        | mapFieldResult vt r2 d2 => exact Or.inr (Or.inr ⟨_, hres.symm⟩)
        | listResult t r2 d2 => exact Or.inr (Or.inr ⟨_, hres.symm⟩)
        | connection nt => exact Or.inr (Or.inr ⟨_, hres.symm⟩)
        | dynamic o =>
            cases o with
            | none => exact Or.inl hres.symm
            | some p =>
                obtain ⟨e, ds⟩ := p
                cases hn : e.gtype.isNode with
                | true =>
                    refine Or.inr (Or.inl ⟨e.gtype, ?_⟩)
                    rw [← hres]
                    simp [list_field_from_base, hn]
                | false =>
                    refine Or.inr (Or.inr ⟨e.gtype, ?_⟩)
                    rw [← hres]
                    simp [list_field_from_base, hn]
        | absent => exact Or.inr (Or.inr ⟨_, hres.symm⟩)
  · intro res hres
    have harm : convert_mongoengine_field reg (.genericReferenceField req d choices) =
        (if (resolvableChoices reg choices).isEmpty then Except.ok ConvertResult.absent
         else Except.ok (.field (.union ((resolvableChoices reg choices).map GType.metaName))
           false none)) := rfl
    rw [harm] at hres
    split at hres
    · exact Or.inl (Except.ok.inj hres).symm
    · exact Or.inr ⟨_, (Except.ok.inj hres).symm⟩

/-- C6: converting a field whose kind matches no rule of the conversion
table always fails with the single `MongoEngineConversionError` kind,
whose message interpolates the offending field and its runtime class; it
never yields a field for such a kind; and the error is never raised for a
legitimate reference kind whose target type is merely not yet registered —
that conversion yields a deferred field resolving to absent. -/
theorem C6_unrecognized_kind_error (req : Bool) (d : Option String) (cls : String)
    (reg : Registry) (target : String)
    (h : get_type_for_model reg target = none) :
    convert_mongoengine_field reg (.unknownField req d cls) =
      .error ⟨(MField.unknownField req d cls).pyRepr, cls⟩ ∧
    (∀ r, convert_mongoengine_field reg (.unknownField req d cls) ≠ .ok r) ∧
    (MongoEngineConversionError.mk (MField.unknownField req d cls).pyRepr cls).message =
      "Dont know how to convert the MongoEngine field " ++ ("<" ++ cls ++ " object>") ++
        " (" ++ cls ++ ")" ∧
    convert_mongoengine_field reg (.referenceField req d target) = .ok (.dynamic none) := by
  refine ⟨rfl, ?_, rfl, ?_⟩
  · intro r hr
    simp [convert_mongoengine_field] at hr
  · simp [convert_mongoengine_field, h]

/-- C6 witness: the unrecognized-kind error and the absent forward
reference at concrete inputs. -/
theorem C6_unrecognized_kind_error_witness :
    get_type_for_model ([] : Registry) "MissingModel" = none ∧
    (convert_mongoengine_field [] (.unknownField true none "CustomField") =
       .error ⟨(MField.unknownField true none "CustomField").pyRepr, "CustomField"⟩ ∧
     (∀ r, convert_mongoengine_field ([] : Registry) (.unknownField true none "CustomField") ≠ .ok r) ∧
     (MongoEngineConversionError.mk (MField.unknownField true none "CustomField").pyRepr
        "CustomField").message =
       "Dont know how to convert the MongoEngine field " ++ ("<" ++ "CustomField" ++ " object>") ++
         " (" ++ "CustomField" ++ ")" ∧
     convert_mongoengine_field ([] : Registry) (.referenceField true none "MissingModel") =
       .ok (.dynamic none)) :=
  ⟨rfl, C6_unrecognized_kind_error true none "CustomField" [] "MissingModel" rfl⟩

/-- C7: converting a list field whose element descriptor resolves to a
connection-capable (node) object type yields a connection field rather
than a plain list field; converting a list field whose element converts to
a plain scalar yields a plain list field wrapping that scalar, carrying
the source list field's required flag and description. -/
theorem C7_list_conversion (req ereq : Bool) (d ed : Option String)
    (reg : Registry) (target : String) (entry : RegisteredType) (nm : String)
    (h : get_type_for_model reg target = some entry)
    (hn : entry.gtype = .object nm true) :
    convert_mongoengine_field reg (.listField req d (.referenceField ereq ed target)) =
      .ok (.connection entry.gtype) ∧
    convert_mongoengine_field reg (.listField req d (.intField ereq ed)) =
      .ok (.listResult .int req d) := by
  constructor
  · simp [convert_mongoengine_field, h, Except.map, list_field_from_base, hn, GType.isNode]
  · rfl

/-- C7 witness: a list of references to a registered node type becomes a
connection field, and a list of integers becomes a plain list of Int. -/
theorem C7_list_conversion_witness :
    get_type_for_model [("Author", RegisteredType.mk (.object "AuthorType" true) true false)]
      "Author" = some (RegisteredType.mk (.object "AuthorType" true) true false) ∧
    (RegisteredType.mk (.object "AuthorType" true) true false).gtype = .object "AuthorType" true ∧
    (convert_mongoengine_field [("Author", RegisteredType.mk (.object "AuthorType" true) true false)]
       (.listField true (some "authors") (.referenceField false none "Author")) =
       .ok (.connection (.object "AuthorType" true)) ∧
     convert_mongoengine_field [("Author", RegisteredType.mk (.object "AuthorType" true) true false)]
       (.listField true (some "authors") (.intField false none)) =
       .ok (.listResult .int true (some "authors"))) :=
  ⟨rfl, rfl,
    C7_list_conversion true false (some "authors") none
      [("Author", RegisteredType.mk (.object "AuthorType" true) true false)]
      "Author" (RegisteredType.mk (.object "AuthorType" true) true false) "AuthorType" rfl rfl⟩

/-- Length of a `filterMap` as a count of inputs on which the function
succeeds. -/
theorem length_filterMap_eq_countP (f : α → Option β) (l : List α) :
    (l.filterMap f).length = l.countP (fun a => (f a).isSome) := by
  induction l with
  | nil => rfl
  | cons a l ih =>
      cases h : f a <;> simp [List.filterMap_cons, h, List.countP_cons, ih]

/-- C8: converting a generic-reference (or generic-embedded) field with
zero resolvable target choices yields no field at all (absent), not an
error; with at least one resolvable choice it yields a field typed as a
synthesized union whose member count equals the number of resolvable
choices. -/
theorem C8_generic_reference_union (reg : Registry) (choices : List String)
    (req : Bool) (d : Option String) :
    (resolvableChoices reg choices = [] →
      convert_mongoengine_field reg (.genericReferenceField req d choices) = .ok .absent ∧
      convert_mongoengine_field reg (.genericEmbeddedDocumentField req d choices) = .ok .absent) ∧
    (resolvableChoices reg choices ≠ [] →
      convert_mongoengine_field reg (.genericReferenceField req d choices) =
        .ok (.field (.union ((resolvableChoices reg choices).map GType.metaName)) false none) ∧
      convert_mongoengine_field reg (.genericEmbeddedDocumentField req d choices) =
        .ok (.field (.union ((resolvableChoices reg choices).map GType.metaName)) false none)) ∧
    ((resolvableChoices reg choices).map GType.metaName).length =
      choices.countP (fun c => (get_type_for_model reg c).isSome) := by
  refine ⟨fun h => ?_, fun h => ?_, ?_⟩
  · constructor <;> simp [convert_mongoengine_field, h]
  · constructor <;> simp [convert_mongoengine_field, List.isEmpty_iff, h]
  · unfold resolvableChoices
    rw [List.length_map, length_filterMap_eq_countP]
    simp [Option.isSome_map]

/-- C8 witness: with two of three choices registered the union has two
members; with no choice registered the conversion is absent. -/
theorem C8_generic_reference_union_witness :
    resolvableChoices
        [("A", RegisteredType.mk (.object "AType" true) true false),
         ("C", RegisteredType.mk (.object "CType" false) true false)]
        ["A", "B", "C"] ≠ [] ∧
    (convert_mongoengine_field
        [("A", RegisteredType.mk (.object "AType" true) true false),
         ("C", RegisteredType.mk (.object "CType" false) true false)]
        (.genericReferenceField false none ["A", "B", "C"]) =
      .ok (.field (.union ["AType", "CType"]) false none)) ∧
    resolvableChoices ([] : Registry) ["X"] = [] ∧
    convert_mongoengine_field ([] : Registry) (.genericReferenceField false none ["X"]) =
      .ok .absent := by
  have h1 := (C8_generic_reference_union
    [("A", RegisteredType.mk (.object "AType" true) true false),
     ("C", RegisteredType.mk (.object "CType" false) true false)]
    ["A", "B", "C"] false none).2.1 (by decide)
  have h2 := (C8_generic_reference_union ([] : Registry) ["X"] false none).1 (by decide)
  have e : (resolvableChoices
      [("A", RegisteredType.mk (.object "AType" true) true false),
       ("C", RegisteredType.mk (.object "CType" false) true false)]
      ["A", "B", "C"]).map GType.metaName = ["AType", "CType"] := by decide
  rw [e] at h1
  exact ⟨by decide, h1.1, by decide, h2.1⟩

/-- C9: entry-type synthesis is idempotent on the cache — after a first
request created and stored an entry type (named `<ValueTypeName>Entry` and
capturing the first value type), a second request for any value type with
the same declared name returns that exact stored object and leaves the
cache unchanged; and resolving the map `{"a": 1, "b": 2}` through the map
resolver yields `[{key: "a", value: 1}, {key: "b", value: 2}]`, preserving
the key order. -/
theorem C9_entry_cache_idempotent (vt1 vt2 : GType) (cache : EntryCache)
    (hname : vt2.metaName = vt1.metaName)
    (hmiss : cache.lookup vt1.metaName = none) :
    (get_entry_type vt2 (get_entry_type vt1 cache).2).1 = (get_entry_type vt1 cache).1 ∧
    (get_entry_type vt2 (get_entry_type vt1 cache).2).2 = (get_entry_type vt1 cache).2 ∧
    (get_entry_type vt1 cache).1.name = vt1.metaName ++ "Entry" ∧
    (get_entry_type vt1 cache).1.value_type = vt1 ∧
    resolve_map [("a", 1), ("b", 2)] = [⟨"a", 1⟩, ⟨"b", 2⟩] := by
  have h1 : get_entry_type vt1 cache =
      (⟨vt1.metaName ++ "Entry", vt1⟩, (vt1.metaName, ⟨vt1.metaName ++ "Entry", vt1⟩) :: cache) := by
    simp [get_entry_type, hmiss]
  have h2 : get_entry_type vt2 ((vt1.metaName, (⟨vt1.metaName ++ "Entry", vt1⟩ : EntryType)) :: cache) =
      (⟨vt1.metaName ++ "Entry", vt1⟩, (vt1.metaName, ⟨vt1.metaName ++ "Entry", vt1⟩) :: cache) := by
    simp [get_entry_type, List.lookup, hname]
  rw [h1]
  exact ⟨by rw [h2], by rw [h2], rfl, rfl, rfl⟩

/-- C9 witness: two distinct value types that share the declared name
`"Foo"` — the second request returns the object synthesized for the
first. -/
theorem C9_entry_cache_idempotent_witness :
    (GType.object "Foo" false).metaName = (GType.object "Foo" true).metaName ∧
    (([] : EntryCache).lookup (GType.object "Foo" true).metaName = none) ∧
    ((get_entry_type (.object "Foo" false) (get_entry_type (.object "Foo" true) []).2).1 =
       (get_entry_type (.object "Foo" true) ([] : EntryCache)).1 ∧
     (get_entry_type (.object "Foo" false) (get_entry_type (.object "Foo" true) []).2).2 =
       (get_entry_type (.object "Foo" true) ([] : EntryCache)).2 ∧
     (get_entry_type (.object "Foo" true) ([] : EntryCache)).1.name =
       (GType.object "Foo" true).metaName ++ "Entry" ∧
     (get_entry_type (.object "Foo" true) ([] : EntryCache)).1.value_type =
       .object "Foo" true ∧
     resolve_map [("a", 1), ("b", 2)] = [⟨"a", 1⟩, ⟨"b", 2⟩]) :=
  ⟨rfl, rfl, C9_entry_cache_idempotent (.object "Foo" true) (.object "Foo" false) [] rfl rfl⟩

/-- C10: `MapField.map_resolver` unconditionally chains the key/value
projection after the underlying resolver's result (directly on a plain
value, after settlement on a thenable); the projection iterates the
result's items, so a settled map is flattened to its entries, while a
settled `None` is never passed through as an absent result — it hits the
unguarded attribute access and raises. -/
theorem C10_map_resolver_unguarded (r : ResolverResult) (es : List (String × Int)) :
    map_resolver r = resolve_map_settled r.settled ∧
    map_resolver (.immediate (.pymap es)) = .ok (resolve_map es) ∧
    map_resolver (.thenable (.pymap es)) = .ok (resolve_map es) ∧
    map_resolver (.immediate .pynone) =
      .error "AttributeError: NoneType object has no attribute items" ∧
    map_resolver (.thenable .pynone) =
      .error "AttributeError: NoneType object has no attribute items" ∧
    (∀ v, map_resolver (.immediate .pynone) ≠ .ok v) := by
  refine ⟨?_, rfl, rfl, rfl, rfl, ?_⟩
  · cases r <;> rfl
  · intro v hv
    simp [map_resolver, maybe_thenable, resolve_map_settled] at hv

/-- C3: supplying `order_by = "relevance"` together with a non-empty
search value orders the query by the descending text-search relevance
score key (after applying the text search); supplying
`order_by = "relevance"` with no search value applies no ordering at all;
supplying `order_by = "-age"` orders by the `-age` key, which the driver
convention reads as descending on `age`. -/
theorem C3_order_by_relevance (filters : List (String × Int)) (s : String)
    (h : s ≠ "") :
    (get_queryset ⟨filters, some s, some "relevance"⟩).applied =
      [.search_text s, .order_by "$text_score"] ∧
    orderKeyMeaning "$text_score" = .byRelevanceDesc ∧
    (get_queryset ⟨filters, none, some "relevance"⟩).applied = [] ∧
    (get_queryset ⟨filters, none, some "-age"⟩).applied = [.order_by "-age"] ∧
    orderKeyMeaning "-age" = .byFieldDesc "age" := by
  refine ⟨?_, by decide, rfl, rfl, by decide⟩
  simp [get_queryset, truthy, h]

/-- C3 witness: the relevance ordering at a concrete non-empty search
string. -/
theorem C3_order_by_relevance_witness :
    ("graphql" ≠ "") ∧
    ((get_queryset ⟨[], some "graphql", some "relevance"⟩).applied =
       [.search_text "graphql", .order_by "$text_score"] ∧
     orderKeyMeaning "$text_score" = .byRelevanceDesc ∧
     (get_queryset ⟨[], none, some "relevance"⟩).applied = [] ∧
     (get_queryset ⟨[], none, some "-age"⟩).applied = [.order_by "-age"] ∧
     orderKeyMeaning "-age" = .byFieldDesc "age") :=
  ⟨by decide, C3_order_by_relevance [] "graphql" (by decide)⟩

/-- C2: for a query matching 10 documents, resolving the connection with
`first = 3` and `after = cursor(2)` yields exactly the documents at
offsets 3, 4 and 5 (with cursors encoding those offsets), with
`hasNextPage = true` and `hasPreviousPage = true`. -/
theorem C2_first_after_pagination (d0 d1 d2 d3 d4 d5 d6 d7 d8 d9 : Nat) :
    (default_resolver [d0, d1, d2, d3, d4, d5, d6, d7, d8, d9]
        (some 3) none none (some 2)).connection.edges =
      [⟨d3, 3⟩, ⟨d4, 4⟩, ⟨d5, 5⟩] ∧
    (default_resolver [d0, d1, d2, d3, d4, d5, d6, d7, d8, d9]
        (some 3) none none (some 2)).connection.pageInfo.hasNextPage = true ∧
    (default_resolver [d0, d1, d2, d3, d4, d5, d6, d7, d8, d9]
        (some 3) none none (some 2)).connection.pageInfo.hasPreviousPage = true ∧
    (default_resolver [d0, d1, d2, d3, d4, d5, d6, d7, d8, d9]
        (some 3) none none (some 2)).list_length = 10 :=
  ⟨rfl, rfl, rfl, rfl⟩

/-- The document model of claim C1: fields `name` (string) and `age`
(integer), neither required. -/
def claimModelFields : List (String × MField) :=
  [("name", .stringField false none), ("age", .intField false none)]

/-- The bound object type fields derived from `claimModelFields` by the
conversion table. -/
def claimTypeFields : List (String × GType) :=
  [("name", .string), ("age", .int)]

/-- The bound type of claim C1, with filter configuration
`{age: ["gt", "in"]}`. -/
def claimBoundType (searchable : Bool) : BoundType :=
  ⟨claimModelFields, claimTypeFields, [("age", ["gt", "in"])], searchable⟩

/-- The same bound type with every declaration list reversed (field
declarations and filter-operator collection). -/
def claimBoundTypeReversed (searchable : Bool) : BoundType :=
  ⟨claimModelFields.reverse, claimTypeFields.reverse, [("age", ["in", "gt"])], searchable⟩

/-- The argument set claim C1 expects: the four base connection arguments,
`order_by`, the two field filters, the two declared filter-collection
arguments, and `search` exactly when searchable. -/
def claimExpectedArgs (searchable : Bool) : Finset (String × GType) :=
  ({("before", .string), ("after", .string), ("first", .int), ("last", .int),
    ("order_by", .string), ("name", .string), ("age", .int),
    ("age__gt", .int), ("age__in", .list .int)} : Finset (String × GType)) ∪
    (if searchable then {("search", GType.string)} else ∅)

/-- C1: for the document model with fields `name` (string) and `age`
(integer, filterable) and filter configuration `{age: ["gt", "in"]}`, the
derived argument set is exactly `{first, last, before, after, order_by,
name, age, age__gt : Int, age__in : [Int]}` with `search` present if and
only if the type is searchable; and the set is unchanged when the model's
field declarations and the filter-operator collection are reversed
(declaration-order independence). -/
theorem C1_connection_argument_set (searchable : Bool) :
    (connection_args (claimBoundType searchable) []).toFinset =
      claimExpectedArgs searchable ∧
    (connection_args (claimBoundTypeReversed searchable) []).toFinset =
      claimExpectedArgs searchable ∧
    ((("search", GType.string) ∈ (connection_args (claimBoundType searchable) []).toFinset) ↔
      searchable = true) := by
  cases searchable <;> decide

/-- C1 witness: the argument set at the searchable bound type. -/
theorem C1_connection_argument_set_witness :
    (connection_args (claimBoundType true) []).toFinset = claimExpectedArgs true ∧
    (connection_args (claimBoundTypeReversed true) []).toFinset = claimExpectedArgs true ∧
    ((("search", GType.string) ∈ (connection_args (claimBoundType true) []).toFinset) ↔
      true = true) :=
  C1_connection_argument_set true

/-- C2 witness: the pagination result at the concrete document list
`[0, 1, ..., 9]`. -/
theorem C2_first_after_pagination_witness :
    (default_resolver [0, 1, 2, 3, 4, 5, 6, 7, 8, 9]
        (some 3) none none (some 2)).connection.edges =
      [⟨3, 3⟩, ⟨4, 4⟩, ⟨5, 5⟩] ∧
    (default_resolver [0, 1, 2, 3, 4, 5, 6, 7, 8, 9]
        (some 3) none none (some 2)).connection.pageInfo.hasNextPage = true ∧
    (default_resolver [0, 1, 2, 3, 4, 5, 6, 7, 8, 9]
        (some 3) none none (some 2)).connection.pageInfo.hasPreviousPage = true ∧
    (default_resolver [0, 1, 2, 3, 4, 5, 6, 7, 8, 9]
        (some 3) none none (some 2)).list_length = 10 :=
  C2_first_after_pagination 0 1 2 3 4 5 6 7 8 9

/-- C4 witness: the scalar conversion table at a required field with a
description. -/
theorem C4_scalar_conversion_witness :
    convert_mongoengine_field [] (.stringField true (some "d")) =
      .ok (.scalar .string true (some "d")) ∧
    convert_mongoengine_field [] (.emailField true (some "d")) =
      .ok (.scalar .string true (some "d")) ∧
    convert_mongoengine_field [] (.urlField true (some "d")) =
      .ok (.scalar .string true (some "d")) ∧
    convert_mongoengine_field [] (.uuidField true (some "d")) =
      .ok (.scalar .id true (some "d")) ∧
    convert_mongoengine_field [] (.objectIdField true (some "d")) =
      .ok (.scalar .id true (some "d")) ∧
    convert_mongoengine_field [] (.intField true (some "d")) =
      .ok (.scalar .int true (some "d")) ∧
    convert_mongoengine_field [] (.longField true (some "d")) =
      .ok (.scalar .int true (some "d")) ∧
    convert_mongoengine_field [] (.sequenceField true (some "d")) =
      .ok (.scalar .int true (some "d")) ∧
    convert_mongoengine_field [] (.booleanField true (some "d")) =
      .ok (.scalar .boolean true (some "d")) ∧
    convert_mongoengine_field [] (.decimalField true (some "d")) =
      .ok (.scalar .float true (some "d")) ∧
    convert_mongoengine_field [] (.floatField true (some "d")) =
      .ok (.scalar .float true (some "d")) ∧
    convert_mongoengine_field [] (.dateTimeField true (some "d")) =
      .ok (.scalar .dateTime true (some "d")) ∧
    convert_mongoengine_field [] (.dictField true (some "d")) =
      .ok (.scalar .jsonString true (some "d")) :=
  C4_scalar_conversion true (some "d") []

/-- C5 amended witness: the propagation facts at concrete attributes, with
every implication hypothesis discharged at a concrete conversion. -/
theorem C5_amended_attribute_propagation_witness :
    convert_mongoengine_field [] (.stringField true (some "d")) =
      .ok (.scalar .string true (some "d")) ∧
    convert_mongoengine_field [] (.mapField true (some "d") (.intField false none)) =
      .ok (.mapFieldResult .int true (some "d")) ∧
    ((ConvertResult.mapFieldResult .int true (some "d")) = .absent ∨
     ∃ t, (ConvertResult.mapFieldResult .int true (some "d")) =
       .mapFieldResult t true (some "d")) ∧
    convert_mongoengine_field [] (.listField true (some "d") (.intField false none)) =
      .ok (.listResult .int true (some "d")) ∧
    ((ConvertResult.listResult .int true (some "d")) = .absent ∨
     (∃ nt, (ConvertResult.listResult .int true (some "d")) = .connection nt) ∨
     ∃ t, (ConvertResult.listResult .int true (some "d")) = .listResult t true (some "d")) ∧
    convert_mongoengine_field [] (.genericReferenceField true (some "d") ["X"]) =
      .ok .absent ∧
    ((ConvertResult.absent) = .absent ∨
     ∃ ms, (ConvertResult.absent) = .field (.union ms) false none) ∧
    convert_mongoengine_field [] (.pointField true (some "d")) =
      .ok (.field .point false none) ∧
    convert_mongoengine_field [] (.referenceField true (some "d") "M") =
      .ok (.dynamic ((get_type_for_model [] "M").map fun e => (e, some "d"))) := by
  have h := C5_amended_attribute_propagation true (some "d") [] (.intField false none) "M" ["X"]
  exact ⟨h.1.1, rfl, h.2.1 _ rfl, rfl, h.2.2.1 _ rfl, rfl, h.2.2.2.2.1 _ rfl,
    h.2.2.2.1.1, h.2.2.2.2.2.1⟩

/-- C10 witness: the map resolver at a one-entry map result. -/
theorem C10_map_resolver_unguarded_witness :
    map_resolver (.immediate (.pymap [("a", 1)])) =
      resolve_map_settled (ResolverResult.immediate (.pymap [("a", 1)])).settled ∧
    map_resolver (.immediate (.pymap [("a", 1)])) = .ok (resolve_map [("a", 1)]) ∧
    map_resolver (.thenable (.pymap [("a", 1)])) = .ok (resolve_map [("a", 1)]) ∧
    map_resolver (.immediate .pynone) =
      .error "AttributeError: NoneType object has no attribute items" ∧
    map_resolver (.thenable .pynone) =
      .error "AttributeError: NoneType object has no attribute items" ∧
    (∀ v, map_resolver (.immediate .pynone) ≠ .ok v) :=
  C10_map_resolver_unguarded (.immediate (.pymap [("a", 1)])) [("a", 1)]

end GrapheneMongo
